import Mathlib

/-!
Verification of the smart-resume-builder transformation pipeline.

Python strings are modelled as `List Char`; Python dicts with a fixed set of
possible keys are modelled as structures whose fields are `Option`-valued
(`none` = key absent), so that both key-presence tests (`'k' in d`) and
defaulted lookups (`d.get('k', default)`) are expressible.  Python dicts used
as ordered mappings (the skills mapping) are modelled as association lists in
insertion order.  Each transformer class of the source becomes a namespace.
-/

/-- Shorthand turning a Lean string literal into the `List Char` model of a
Python string. -/
def str (s : String) : List Char := s.data

namespace Py

/-- Python `s.split(" - ")`: split on the three-character separator,
left-to-right, non-overlapping.  Always returns at least one piece. -/
def splitDash : List Char → List (List Char)
  | ' ' :: '-' :: ' ' :: rest => [] :: splitDash rest
  | c :: cs =>
    match splitDash cs with
    | [] => [[c]]
    | p :: ps => (c :: p) :: ps
  | [] => [[]]

/-- Python `s.split("-")`: split on a single hyphen. -/
def splitHyphen : List Char → List (List Char)
  | '-' :: rest => [] :: splitHyphen rest
  | c :: cs =>
    match splitHyphen cs with
    | [] => [[c]]
    | p :: ps => (c :: p) :: ps
  | [] => [[]]

/-- Split on every whitespace character, keeping empty pieces. -/
def splitWsRaw : List Char → List (List Char)
  | [] => [[]]
  | c :: cs =>
    if c.isWhitespace then [] :: splitWsRaw cs
    else
      match splitWsRaw cs with
      | [] => [[c]]
      | p :: ps => (c :: p) :: ps

/-- Python `s.split()` with no argument: split on whitespace runs, discarding
empty pieces. -/
def splitWs (s : List Char) : List (List Char) :=
  (splitWsRaw s).filter (· ≠ [])

/-- Remove leading whitespace. -/
def stripLeft : List Char → List Char
  | [] => []
  | c :: cs => if c.isWhitespace then stripLeft cs else c :: cs

/-- Python `s.strip()`: remove leading and trailing whitespace. -/
def strip (s : List Char) : List Char :=
  (stripLeft (stripLeft s).reverse).reverse

/-- Python `s.lower()` (ASCII). -/
def lower (s : List Char) : List Char := s.map Char.toLower

/-- Python `s.isdigit()` (ASCII digits): nonempty and all digits. -/
def isdigit (s : List Char) : Bool := !s.isEmpty && s.all Char.isDigit

/-- Python `sep.join(xs)`. -/
def join (sep : List Char) : List (List Char) → List Char
  | [] => []
  | [x] => x
  | x :: xs => x ++ sep ++ join sep xs

/-- Helper for `title`: the flag records whether the previous character was
alphabetic. -/
def titleAux : Bool → List Char → List Char
  | _, [] => []
  | prev, c :: cs =>
    (if c.isAlpha then (if prev then c.toLower else c.toUpper) else c) :: titleAux c.isAlpha cs

/-- Python `s.title()` (ASCII): uppercase every letter that follows a
non-letter, lowercase the other letters. -/
def title (s : List Char) : List Char := titleAux false s

end Py

/-- The end-of-duration words `['present', 'current', 'now']` that both
transformers compare the lowercased end component against. -/
def presentWords : List (List Char) := [str "present", str "current", str "now"]

/-- The `contact` sub-dictionary of a resume record. -/
structure Contact where
  name : Option (List Char) := none
  title : Option (List Char) := none
  email : Option (List Char) := none
  phone : Option (List Char) := none
  location : Option (List Char) := none
  linkedin : Option (List Char) := none
  github : Option (List Char) := none
  website : Option (List Char) := none
deriving DecidableEq

/-- The `summary` sub-dictionary of a resume record. -/
structure Summary where
  sentences : Option (List (List Char)) := none
  selected_sentences : Option (List (List Char)) := none
deriving DecidableEq

/-- One experience entry of a resume record (a Python dict; `none` = key
absent). -/
structure Exp where
  company : Option (List Char) := none
  position : Option (List Char) := none
  location : Option (List Char) := none
  duration : Option (List Char) := none
  accomplishments : Option (List (List Char)) := none
  selected_accomplishments : Option (List (List Char)) := none
  role_summaries : Option (List (List Char)) := none
  selected_role_summary : Option (List Char) := none
deriving DecidableEq

/-- One education entry of a resume record. -/
structure Edu where
  institution : Option (List Char) := none
  degree : Option (List Char) := none
  field : Option (List Char) := none
  area : Option (List Char) := none
  graduation : Option (List Char) := none
  location : Option (List Char) := none
  gpa : Option (List Char) := none
  highlights : Option (List (List Char)) := none
  details : Option (List (List Char)) := none
deriving DecidableEq

/-- One project entry of a resume record. -/
structure Proj where
  name : Option (List Char) := none
  url : Option (List Char) := none
  location : Option (List Char) := none
  descriptions : Option (List (List Char)) := none
  selected_description : Option (List Char) := none
  achievements : Option (List (List Char)) := none
  technologies : Option (List (List Char)) := none
deriving DecidableEq

/-- One certification entry of a resume record. -/
structure Cert where
  name : Option (List Char) := none
  issuer : Option (List Char) := none
  date : Option (List Char) := none
deriving DecidableEq

/-- The `skills` mapping: a Python dict from category name to skill list,
modelled as an association list in insertion order. -/
abbrev Skills := List (List Char × List (List Char))

/-- A resume record (the internal structure produced by the parser and
consumed by every transformer and by the markdown generator). -/
structure Resume where
  contact : Option Contact := none
  summary : Option Summary := none
  experience : Option (List Exp) := none
  education : Option (List Edu) := none
  skills : Option Skills := none
  projects : Option (List Proj) := none
  certifications : Option (List Cert) := none
  achievements : Option (List (List Char)) := none
deriving DecidableEq

/-- Python `skills_data.get(key, [])` on the ordered skills mapping: the value
at the first occurrence of the key, or the empty list. -/
def dictGet (k : List Char) : Skills → List (List Char)
  | [] => []
  | (k2, v) :: rest => if k2 = k then v else dictGet k rest

namespace TypstRenderer

/-- One pass of Python `text.replace(DQUOTE, BACKSLASH DQUOTE)`: every
double-quote character is replaced by a backslash followed by a double-quote. -/
def replaceQuote : List Char → List Char
  | [] => []
  | c :: cs => if c = '"' then '\\' :: '"' :: replaceQuote cs else c :: replaceQuote cs

/-- One pass of Python `text.replace` doubling every backslash character. -/
def replaceBackslash : List Char → List Char
  | [] => []
  | c :: cs => if c = '\\' then '\\' :: '\\' :: replaceBackslash cs else c :: replaceBackslash cs

/-- `TypstRenderer._escape_typst` from src/typst_renderer.py: returns the empty
string on falsy input, otherwise replaces double-quotes first and then
backslashes (this is the order the code actually performs). -/
def _escape_typst (text : List Char) : List Char :=
  if text = [] then [] else replaceBackslash (replaceQuote text)

/-- Modelled from the spec: the escaping order the spec prescribes for the
typesetting escaper — backslash replaced first, and only then double-quote.
Used to compare the spec's prescribed order with the code's actual order. -/
def escape_backslash_first (text : List Char) : List Char :=
  if text = [] then [] else replaceQuote (replaceBackslash text)

end TypstRenderer

namespace JSONResumeTransformer

/-- `JSONResumeTransformer._get_work_summary`: the selected role summary when
that key is present, else the first of `role_summaries`, else empty. -/
def _get_work_summary (exp : Exp) : List Char :=
  match exp.selected_role_summary with
  | some s => s
  | none => (exp.role_summaries.getD []).headD []

/-- `JSONResumeTransformer._get_work_highlights`: the selected accomplishments
when that key is present, else all accomplishments. -/
def _get_work_highlights (exp : Exp) : List (List Char) :=
  match exp.selected_accomplishments with
  | some l => l
  | none => exp.accomplishments.getD []

/-- `JSONResumeTransformer._get_project_description`: the selected description
when that key is present, else the first of `descriptions`, else empty. -/
def _get_project_description (proj : Proj) : List Char :=
  match proj.selected_description with
  | some s => s
  | none => (proj.descriptions.getD []).headD []

/-- `JSONResumeTransformer._normalize_date`: returns the empty string on falsy
input and otherwise the original string unchanged (the code performs no real
normalization). -/
def _normalize_date (date_str : List Char) : List Char :=
  if date_str = [] then [] else date_str

/-- `JSONResumeTransformer._parse_start_date`: the stripped text before the
first three-character separator of the duration, passed through
`_normalize_date`. -/
def _parse_start_date (duration_str : List Char) : List Char :=
  if duration_str = [] then []
  else
    let parts := Py.splitDash duration_str
    if 1 ≤ parts.length then _normalize_date (Py.strip (parts.headD []))
    else []

/-- `JSONResumeTransformer._parse_end_date`: the stripped second piece of the
duration, with the words present/current/now (case-insensitive) mapped to the
empty string. -/
def _parse_end_date (duration_str : List Char) : List Char :=
  if duration_str = [] then []
  else
    let parts := Py.splitDash duration_str
    if 2 ≤ parts.length then
      let end_part := Py.strip (parts.getD 1 [])
      if Py.lower end_part ∈ presentWords then []
      else _normalize_date end_part
    else []

/-- One entry of the JSON Resume `skills` section. -/
structure JRSkillsEntry where
  name : List Char
  level : List Char
  keywords : List (List Char)
deriving DecidableEq

/-- `JSONResumeTransformer._transform_skills`: the four categories in the
declared order of the `skill_categories` dict literal, keeping only the
non-empty ones. -/
def _transform_skills (skills_data : Skills) : List JRSkillsEntry :=
  let skill_categories : List (List Char × List (List Char)) :=
    [(str "Programming Languages", dictGet (str "programming") skills_data),
     (str "Technical Skills", dictGet (str "technical") skills_data),
     (str "Tools & Technologies", dictGet (str "tools") skills_data),
     (str "Soft Skills", dictGet (str "soft_skills") skills_data)]
  skill_categories.filterMap fun p =>
    if p.2 ≠ [] then some ⟨p.1, [], p.2⟩ else none

end JSONResumeTransformer

namespace RenderCVTransformer

/-- Is the string exactly four ASCII digits (regex `^\d\x7b4\x7d$`)? -/
def isYYYY (s : List Char) : Bool :=
  s.length == 4 && s.all Char.isDigit

/-- Does the string match the regex for YYYY-MM? -/
def isYYYYMM : List Char → Bool
  | [a, b, c, d, h, e, f] =>
    a.isDigit && b.isDigit && c.isDigit && d.isDigit && h == '-' && e.isDigit && f.isDigit
  | _ => false

/-- Does the string match the regex for YYYY-MM-DD? -/
def isYYYYMMDD : List Char → Bool
  | [a, b, c, d, h1, e, f, h2, g, i] =>
    a.isDigit && b.isDigit && c.isDigit && d.isDigit && h1 == '-' &&
    e.isDigit && f.isDigit && h2 == '-' && g.isDigit && i.isDigit
  | _ => false

/-- The `month_mapping` dict literal of `_normalize_date`. -/
def month_mapping : List (List Char × List Char) :=
  [(str "jan", str "01"), (str "january", str "01"),
   (str "feb", str "02"), (str "february", str "02"),
   (str "mar", str "03"), (str "march", str "03"),
   (str "apr", str "04"), (str "april", str "04"),
   (str "may", str "05"),
   (str "jun", str "06"), (str "june", str "06"),
   (str "jul", str "07"), (str "july", str "07"),
   (str "aug", str "08"), (str "august", str "08"),
   (str "sep", str "09"), (str "sept", str "09"), (str "september", str "09"),
   (str "oct", str "10"), (str "october", str "10"),
   (str "nov", str "11"), (str "november", str "11"),
   (str "dec", str "12"), (str "december", str "12")]

/-- First-occurrence lookup in an association list of strings. -/
def alistGet (k : List Char) : List (List Char × List Char) → Option (List Char)
  | [] => none
  | (k2, v) :: rest => if k2 = k then some v else alistGet k rest

/-- `RenderCVTransformer._normalize_date`: pass through YYYY / YYYY-MM /
YYYY-MM-DD, turn a recognised month-name-plus-year into YYYY-MM, extract a
start year from hyphenated ranges, and return the empty string on anything
else (after printing a warning). -/
def _normalize_date (date_str : List Char) : List Char :=
  if date_str = [] then []
  else
    let s := Py.strip date_str
    if isYYYY s then s
    else if isYYYYMM s then s
    else if isYYYYMMDD s then s
    else
      let parts := Py.splitWs (Py.lower s)
      let monthResult : Option (List Char) :=
        if 2 ≤ parts.length then
          let month_name := parts.headD []
          let year := parts.getD 1 []
          if Py.isdigit year && year.length == 4 then
            match alistGet month_name month_mapping with
            | some m => some (year ++ '-' :: m)
            | none => none
          else none
        else none
      match monthResult with
      | some r => r
      | none =>
        if Py.isdigit s && s.length == 4 then s
        else if s.contains '-' then
          let year_part := (Py.splitHyphen s).headD []
          if Py.isdigit year_part then
            if year_part.length == 4 then year_part
            else if year_part.length == 2 then '2' :: '0' :: year_part
            else []
          else []
        else []

/-- `RenderCVTransformer._parse_duration`: split the duration on the
three-character separator into a normalized start date and an end date, the
end words present/current/now becoming the literal `present`. -/
def _parse_duration (duration_str : List Char) : List Char × List Char :=
  if duration_str = [] then ([], [])
  else
    let parts := Py.splitDash duration_str
    if 2 ≤ parts.length then
      let start_date := _normalize_date (Py.strip (parts.headD []))
      let end_date_str := Py.strip (parts.getD 1 [])
      let end_date :=
        if Py.lower end_date_str ∈ presentWords then str "present"
        else _normalize_date end_date_str
      (start_date, end_date)
    else
      (_normalize_date duration_str, [])

/-- Decimal rendering of the Python expression `str(int(year) - 4)` where
`year` is the numeric value of a four-digit string. -/
def yearMinus4 (n : Nat) : List Char :=
  (toString (Int.ofNat n - 4)).data

/-- Numeric value of an all-digit string. -/
def digitsToNat (s : List Char) : Nat :=
  s.foldl (fun a c => a * 10 + (c.toNat - 48)) 0

/-- `RenderCVTransformer._parse_education_dates`: turn a graduation string
into a start/end date pair (four-digit year becomes an assumed four-year
Sept-to-May program, ranges are split, anything unparseable becomes empty). -/
def _parse_education_dates (graduation_str : List Char) : List Char × List Char :=
  if graduation_str = [] then ([], [])
  else
    let g := Py.strip graduation_str
    if Py.isdigit g && g.length == 4 then
      (yearMinus4 (digitsToNat g) ++ str "-09", g ++ str "-05")
    else if 2 ≤ (Py.splitDash g).length then
      let parts := Py.splitDash g
      let start_year := Py.strip (parts.headD [])
      let end_year := Py.strip (parts.getD 1 [])
      let start_date :=
        if Py.isdigit start_year && start_year.length == 4 then start_year ++ str "-09"
        else _normalize_date start_year
      let end_date :=
        if Py.isdigit end_year && end_year.length == 4 then end_year ++ str "-05"
        else if Py.lower end_year ∈ presentWords then str "present"
        else _normalize_date end_year
      (start_date, end_date)
    else
      let normalized := _normalize_date g
      if normalized ≠ [] ∧ normalized ≠ g then (normalized, normalized)
      else ([], [])

/-- The highlights resolution inlined in `_build_experience_entries`: the
selected accomplishments whenever that key is present, else all
accomplishments when truthy, else the initial empty list. -/
def expHighlights (exp : Exp) : List (List Char) :=
  match exp.selected_accomplishments with
  | some l => l
  | none =>
    if exp.accomplishments.getD [] ≠ [] then exp.accomplishments.getD []
    else []

/-- The summary resolution inlined in `_build_experience_entries`: the
`summary` key is set to the selected role summary whenever that key is
present, else to the first role summary when there is one, else left absent. -/
def expSummary (exp : Exp) : Option (List Char) :=
  match exp.selected_role_summary with
  | some s => some s
  | none =>
    if exp.role_summaries.getD [] ≠ [] then some ((exp.role_summaries.getD []).headD [])
    else none

/-- One RenderCV experience entry. -/
structure RCExpEntry where
  company : List Char
  position : List Char
  location : List Char
  start_date : List Char
  end_date : List Char
  highlights : List (List Char)
  summary : Option (List Char)
deriving DecidableEq

/-- `RenderCVTransformer._build_experience_entries`. -/
def _build_experience_entries (experiences : List Exp) : List RCExpEntry :=
  experiences.map fun exp =>
    let dates := _parse_duration (exp.duration.getD [])
    { company := exp.company.getD []
      position := exp.position.getD []
      location := exp.location.getD []
      start_date := dates.1
      end_date := dates.2
      highlights := expHighlights exp
      summary := expSummary exp }

/-- The `area` resolution of `_build_education_entries`: the Python truthiness
chain over the field, area and degree keys. -/
def eduArea (edu : Edu) : List Char :=
  if edu.field.getD [] ≠ [] then edu.field.getD []
  else if edu.area.getD [] ≠ [] then edu.area.getD []
  else edu.degree.getD []

/-- One RenderCV education entry; optional keys are only added when their
value is truthy. -/
structure RCEduEntry where
  institution : List Char
  area : List Char
  degree : Option (List Char)
  location : Option (List Char)
  start_date : Option (List Char)
  end_date : Option (List Char)
  highlights : Option (List (List Char))
deriving DecidableEq

/-- One loop iteration of `_build_education_entries`: `none` when the entry is
skipped for a missing required field, otherwise the emitted entry. -/
def eduEntryOut (edu : Edu) : Option RCEduEntry :=
  let dates := _parse_education_dates (edu.graduation.getD [])
  let start_date := dates.1
  let end_date := dates.2
  let institution := edu.institution.getD []
  let area := eduArea edu
  if institution = [] ∨ area = [] then none
  else
    let highlights :=
      edu.highlights.getD [] ++
        (if edu.gpa.getD [] ≠ [] then [str "GPA: " ++ edu.gpa.getD []] else [])
    some
      { institution := institution
        area := area
        degree := if edu.degree.getD [] ≠ [] then some (edu.degree.getD []) else none
        location := if edu.location.getD [] ≠ [] then some (edu.location.getD []) else none
        start_date := if start_date ≠ [] then some start_date else none
        end_date := if end_date ≠ [] then some end_date else none
        highlights := if highlights ≠ [] then some highlights else none }

/-- `RenderCVTransformer._build_education_entries`. -/
def _build_education_entries (education : List Edu) : List RCEduEntry :=
  education.filterMap eduEntryOut

/-- The state of one input education dict after `_build_education_entries` has
run: when the entry is not skipped, has a `highlights` key, and has a truthy
`gpa`, the code appends the GPA line to the very list object held by the
input dict (`highlights = edu.get('highlights', [])` aliases it), so the
input entry is mutated. -/
def eduAfterBuild (edu : Edu) : Edu :=
  if edu.institution.getD [] = [] ∨ eduArea edu = [] then edu
  else if edu.highlights.isSome ∧ edu.gpa.getD [] ≠ [] then
    { edu with
      highlights := some (edu.highlights.getD [] ++ [str "GPA: " ++ edu.gpa.getD []]) }
  else edu

/-- The state of the input resume record after `transform_to_rendercv`: the
education highlights aliasing above is the only place any transformer writes
through to its input. -/
def transform_to_rendercv_input_after (r : Resume) : Resume :=
  { r with education := r.education.map (List.map eduAfterBuild) }

/-- One RenderCV skills entry. -/
structure RCSkillsEntry where
  label : List Char
  details : List Char
deriving DecidableEq

/-- `RenderCVTransformer._build_skills_entries`: iterate the skills mapping in
its own (insertion) order, keeping truthy categories. -/
def _build_skills_entries (skills_data : Skills) : List RCSkillsEntry :=
  skills_data.filterMap fun p =>
    if p.2 ≠ [] then
      some ⟨Py.title (p.1.map fun c => if c = '_' then ' ' else c), Py.join (str ", ") p.2⟩
    else none

end RenderCVTransformer

namespace Matcher

/-- The header block of `generate_markdown`: name, title, and the truthy
contact fields joined in declaration order. -/
def contactSection (contact : Contact) : List Char :=
  (if contact.name.getD [] ≠ [] then str "# " ++ contact.name.getD [] ++ str "\n\n" else []) ++
  (if contact.title.getD [] ≠ [] then str "**" ++ contact.title.getD [] ++ str "**\n\n" else []) ++
  (let contact_info :=
    ([contact.email, contact.phone, contact.location, contact.linkedin,
      contact.github, contact.website].map (·.getD [])).filter (· ≠ [])
   if contact_info ≠ [] then Py.join (str " | ") contact_info ++ str "\n\n" else [])

/-- The summary block of `generate_markdown`. -/
def summarySection (summary : Summary) : List Char :=
  if summary.selected_sentences.getD [] ≠ [] then
    str "## Summary\n\n" ++ Py.join (str " ") (summary.selected_sentences.getD []) ++ str "\n\n"
  else []

/-- The accomplishment bullets `generate_markdown` emits for one experience
entry: one bullet per selected accomplishment when that key is truthy —
there is no fallback to the full accomplishments list. -/
def expBullets (exp : Exp) : List Char :=
  if exp.selected_accomplishments.getD [] ≠ [] then
    ((exp.selected_accomplishments.getD []).map fun acc => str "• " ++ acc ++ str "\n").flatten
      ++ str "\n\n"
  else []

/-- The markdown `generate_markdown` emits for one experience entry. -/
def expMarkdown (exp : Exp) : List Char :=
  (if exp.position.getD [] ≠ [] ∧ exp.company.getD [] ≠ [] then
    str "### " ++ exp.position.getD [] ++ str " | " ++ exp.company.getD [] ++
      (if exp.duration.getD [] ≠ [] then str " | " ++ exp.duration.getD [] else []) ++
      str "\n\n"
   else []) ++
  (if exp.selected_role_summary.getD [] ≠ [] then
    exp.selected_role_summary.getD [] ++ str "\n\n"
   else []) ++
  expBullets exp

/-- The Professional Experience block of `generate_markdown`. -/
def experienceSection (exps : List Exp) : List Char :=
  str "## Professional Experience\n\n" ++ (exps.map expMarkdown).flatten

/-- The flat skills list of `generate_markdown`: every truthy category's
skills, in the insertion order of the mapping. -/
def allSkills (skills_data : Skills) : List (List Char) :=
  (skills_data.filterMap fun p => if p.2 ≠ [] then some p.2 else none).flatten

/-- The Technical Skills block of `generate_markdown`. -/
def skillsSection (skills_data : Skills) : List Char :=
  if allSkills skills_data ≠ [] then
    str "## Technical Skills\n\n" ++ Py.join (str ", ") (allSkills skills_data) ++ str "\n\n"
  else []

/-- The markdown `generate_markdown` emits for one project entry. -/
def projMarkdown (proj : Proj) : List Char :=
  (if proj.name.getD [] ≠ [] then
    str "### " ++ proj.name.getD [] ++
      (if proj.url.getD [] ≠ [] then str " | " ++ proj.url.getD [] else []) ++ str "\n\n"
   else []) ++
  (if proj.selected_description.getD [] ≠ [] then
    proj.selected_description.getD [] ++ str "\n\n"
   else []) ++
  (if proj.technologies.getD [] ≠ [] then
    str "**Technologies:** " ++ Py.join (str ", ") (proj.technologies.getD []) ++ str "\n\n"
   else [])

/-- The Projects block of `generate_markdown`. -/
def projectsSection (projects : List Proj) : List Char :=
  str "## Projects\n\n" ++ (projects.map projMarkdown).flatten

/-- The markdown `generate_markdown` emits for one education entry. -/
def eduMarkdown (edu : Edu) : List Char :=
  (if edu.degree.getD [] ≠ [] ∧ edu.institution.getD [] ≠ [] then
    str "### " ++ edu.degree.getD [] ++ str " | " ++ edu.institution.getD [] ++
      (if edu.graduation.getD [] ≠ [] then str " | " ++ edu.graduation.getD [] else []) ++
      str "\n\n"
   else []) ++
  (if edu.details.getD [] ≠ [] then
    ((edu.details.getD []).map fun d => str "• " ++ d ++ str "\n").flatten ++ str "\n"
   else [])

/-- The Education block of `generate_markdown`. -/
def educationSection (education : List Edu) : List Char :=
  str "## Education\n\n" ++ (education.map eduMarkdown).flatten

/-- The markdown `generate_markdown` emits for one certification entry. -/
def certMarkdown (cert : Cert) : List Char :=
  if cert.name.getD [] ≠ [] then
    str "• " ++ cert.name.getD [] ++
      (if cert.issuer.getD [] ≠ [] then str " - " ++ cert.issuer.getD [] else []) ++
      (if cert.date.getD [] ≠ [] then str " (" ++ cert.date.getD [] ++ str ")" else []) ++
      str "\n"
  else []

/-- The Certifications block of `generate_markdown`. -/
def certificationsSection (certifications : List Cert) : List Char :=
  str "## Certifications\n\n" ++ (certifications.map certMarkdown).flatten ++ str "\n"

/-- The Achievements block of `generate_markdown`. -/
def achievementsSection (achievements : List (List Char)) : List Char :=
  str "## Achievements\n\n" ++
    (achievements.map fun a => str "• " ++ a ++ str "\n").flatten ++ str "\n"

/-- `ResumeMatcher.generate_markdown` from src/matcher.py: concatenate the
section blocks gated on key presence and truthiness exactly as the code does,
then strip the result. -/
def generate_markdown (selected_content : Resume) : List Char :=
  Py.strip (
    (match selected_content.contact with
     | some c => contactSection c
     | none => []) ++
    (match selected_content.summary with
     | some s => summarySection s
     | none => []) ++
    (match selected_content.experience with
     | some exps => if exps ≠ [] then experienceSection exps else []
     | none => []) ++
    (match selected_content.skills with
     | some sk => skillsSection sk
     | none => []) ++
    (match selected_content.projects with
     | some ps => if ps ≠ [] then projectsSection ps else []
     | none => []) ++
    (match selected_content.education with
     | some ed => if ed ≠ [] then educationSection ed else []
     | none => []) ++
    (match selected_content.certifications with
     | some cs => if cs ≠ [] then certificationsSection cs else []
     | none => []) ++
    (match selected_content.achievements with
     | some achs => if achs ≠ [] then achievementsSection achs else []
     | none => []))

end Matcher

/-- Modelled from the spec: the `resolve_single` contract — the override when
it is present and non-empty, else the first candidate, else empty. -/
def resolve_single (candidates : List (List Char)) (override : Option (List Char)) : List Char :=
  match override with
  | some s => if s ≠ [] then s else candidates.headD []
  | none => candidates.headD []

/-- The amended single-value contract actually implemented by the code: the
override whenever its key is present — even when it holds the empty string —
else the first candidate, else empty. -/
def resolve_single_key_present (candidates : List (List Char)) (override : Option (List Char)) :
    List Char :=
  match override with
  | some s => s
  | none => candidates.headD []

/-- Modelled from the spec: the `resolve_multi` contract — the override
sequence whenever its key is present (even empty, signaling exclusion), else
the full candidates sequence. -/
def resolve_multi (candidates : List (List Char)) (override : Option (List (List Char))) :
    List (List Char) :=
  match override with
  | some l => l
  | none => candidates

/-- C1 counterexample input: the override key is present but empty while a
candidate exists. -/
def expEmptyOverride : Exp :=
  { selected_role_summary := some [], role_summaries := some [str "Led team"] }

/-- C2 counterexample input: candidates exist and no override key is
present. -/
def expNoOverride : Exp :=
  { accomplishments := some [str "Did A"] }

/-- C5 witness input: an education entry with institution present-but-empty
and no field/area/degree key. -/
def eduNoInstitution : Edu :=
  { institution := some [] }

/-- C6 failing input: an education entry with a `highlights` key and a truthy
`gpa` that passes the required-field check. -/
def eduWithGpa : Edu :=
  { institution := some (str "MIT"), degree := some (str "BS"),
    highlights := some [str "Deans list"], gpa := some (str "4.0") }

/-- C6 failing input: a resume record holding `eduWithGpa`. -/
def resumeWithGpa : Resume :=
  { education := some [eduWithGpa] }

/-- C7 input: a skills mapping populated in insertion order tools, technical,
programming. -/
def skillsToolsFirst : Skills :=
  [(str "tools", [str "Git"]), (str "technical", [str "ML"]), (str "programming", [str "Python"])]

/-- C8 input: the single experience entry of the end-to-end scenario. -/
def expEngineer : Exp :=
  { position := some (str "Engineer"), company := some (str "Acme"),
    duration := some (str "Jan 2020 - Present"),
    accomplishments := some [str "Shipped X", str "Improved Y"],
    role_summaries := some [] }

/-- C8 input: the resume record of the end-to-end scenario. -/
def resumeEngineer : Resume :=
  { experience := some [expEngineer] }

namespace TypstRenderer

theorem length_replaceQuote (s : List Char) :
    (replaceQuote s).length = s.length + s.count '"' := by
  induction s with
  | nil => simp [replaceQuote]
  | cons c cs ih =>
    by_cases h : c = '"' <;>
      simp [replaceQuote, h, ih, List.count_cons] <;> omega

theorem length_replaceBackslash (s : List Char) :
    (replaceBackslash s).length = s.length + s.count '\\' := by
  induction s with
  | nil => simp [replaceBackslash]
  | cons c cs ih =>
    by_cases h : c = '\\' <;>
      simp [replaceBackslash, h, ih, List.count_cons] <;> omega

theorem count_bs_replaceQuote (s : List Char) :
    (replaceQuote s).count '\\' = s.count '\\' + s.count '"' := by
  induction s with
  | nil => simp [replaceQuote]
  | cons c cs ih =>
    by_cases h : c = '"'
    · subst h
      simp [replaceQuote, ih, List.count_cons]
      omega
    · by_cases hb : c = '\\' <;>
        simp [replaceQuote, h, hb, ih, List.count_cons] <;> omega

theorem count_bs_replaceBackslash (s : List Char) :
    (replaceBackslash s).count '\\' = 2 * s.count '\\' := by
  induction s with
  | nil => simp [replaceBackslash]
  | cons c cs ih =>
    by_cases h : c = '\\' <;>
      simp [replaceBackslash, h, ih, List.count_cons] <;> omega

theorem length_escape_ge (s : List Char) :
    s.length + s.count '\\' ≤ (_escape_typst s).length := by
  unfold _escape_typst
  by_cases h : s = []
  · subst h; simp
  · rw [if_neg h, length_replaceBackslash, length_replaceQuote, count_bs_replaceQuote]
    omega

theorem count_bs_escape (s : List Char) :
    (_escape_typst s).count '\\' = 2 * (s.count '\\' + s.count '"') := by
  unfold _escape_typst
  by_cases h : s = []
  · subst h; simp
  · rw [if_neg h, count_bs_replaceBackslash, count_bs_replaceQuote]

end TypstRenderer

/-- Claim C3: the claim says `_escape_typst` replaces backslash first and only
then double-quote.  The code does the opposite: it replaces the double-quote
first, so the backslash inserted by quote-escaping is itself re-escaped.  On
the one-character input consisting of a double-quote, the code yields
backslash-backslash-quote while the spec's prescribed order yields
backslash-quote. -/
theorem C3_escape_order_bug :
    TypstRenderer._escape_typst ['"'] = ['\\', '\\', '"'] ∧
    TypstRenderer.escape_backslash_first ['"'] = ['\\', '"'] ∧
    TypstRenderer._escape_typst ['"'] ≠ TypstRenderer.escape_backslash_first ['"'] := by
  refine ⟨rfl, rfl, ?_⟩
  decide

/-- Claim C9: the typesetting escaper is not idempotent — for every string
containing at least one backslash or double-quote, escaping twice differs from
escaping once. -/
theorem C9_escape_not_idempotent (s : List Char) (h : '\\' ∈ s ∨ '"' ∈ s) :
    TypstRenderer._escape_typst (TypstRenderer._escape_typst s) ≠
      TypstRenderer._escape_typst s := by
  intro hEq
  have hpos : 0 < s.count '\\' + s.count '"' := by
    rcases h with h | h
    · have := List.count_pos_iff.mpr h
      omega
    · have := List.count_pos_iff.mpr h
      omega
  have h2 : 0 < (TypstRenderer._escape_typst s).count '\\' := by
    rw [TypstRenderer.count_bs_escape]; omega
  have h3 := TypstRenderer.length_escape_ge (TypstRenderer._escape_typst s)
  rw [hEq] at h3
  omega

/-- Witness for C9 at the concrete one-character double-quote string. -/
theorem C9_escape_not_idempotent_witness :
    ('\\' ∈ ['"'] ∨ '"' ∈ ['"']) ∧
    TypstRenderer._escape_typst (TypstRenderer._escape_typst ['"']) ≠
      TypstRenderer._escape_typst ['"'] :=
  ⟨Or.inr (by decide), C9_escape_not_idempotent ['"'] (Or.inr (by decide))⟩

theorem splitDash_ne_nil (s : List Char) : Py.splitDash s ≠ [] := by
  rw [Py.splitDash.eq_def]
  split
  · simp
  · split <;> simp
  · simp

theorem json_normalize_id (s : List Char) : JSONResumeTransformer._normalize_date s = s := by
  unfold JSONResumeTransformer._normalize_date
  split <;> simp_all

theorem eduEntryOut_eq_none (edu : Edu)
    (h : edu.institution.getD [] = [] ∨ RenderCVTransformer.eduArea edu = []) :
    RenderCVTransformer.eduEntryOut edu = none := by
  simp only [RenderCVTransformer.eduEntryOut]
  rw [if_pos h]

/-- Claim C1 counterexample: the claim says an override key holding the empty
string is skipped in favour of the first candidate.  On an experience entry
whose selected role summary key is present but empty, the code returns the
empty override, not the candidate demanded by the spec contract. -/
theorem C1_counterexample :
    JSONResumeTransformer._get_work_summary expEmptyOverride = [] ∧
    resolve_single (expEmptyOverride.role_summaries.getD [])
        expEmptyOverride.selected_role_summary = str "Led team" ∧
    JSONResumeTransformer._get_work_summary expEmptyOverride ≠
      resolve_single (expEmptyOverride.role_summaries.getD [])
        expEmptyOverride.selected_role_summary := by
  decide

/-- Claim C1 (amended): single-value resolution returns the override whenever
its key is present — even when it holds the empty string — else the first
candidate, else the empty string; the same key-presence rule holds for the
work role summary, the project description, and the CV-renderer experience
summary.  (The functions are total, so resolution never raises.) -/
theorem C1_single_value_resolution (exp : Exp) (proj : Proj) :
    JSONResumeTransformer._get_work_summary exp
      = resolve_single_key_present (exp.role_summaries.getD []) exp.selected_role_summary ∧
    JSONResumeTransformer._get_project_description proj
      = resolve_single_key_present (proj.descriptions.getD []) proj.selected_description ∧
    (RenderCVTransformer.expSummary exp).getD []
      = resolve_single_key_present (exp.role_summaries.getD []) exp.selected_role_summary := by
  refine ⟨?_, ?_, ?_⟩
  · cases h : exp.selected_role_summary <;>
      simp [JSONResumeTransformer._get_work_summary, resolve_single_key_present, h]
  · cases h : proj.selected_description <;>
      simp [JSONResumeTransformer._get_project_description, resolve_single_key_present, h]
  · cases h : exp.selected_role_summary
    · by_cases h2 : exp.role_summaries.getD [] = [] <;>
        simp [RenderCVTransformer.expSummary, resolve_single_key_present, h, h2]
    · simp [RenderCVTransformer.expSummary, resolve_single_key_present, h]

/-- Claim C2 counterexample: with accomplishments present and no override
key, the spec contract (and the two schema transformers) yield the full
candidate list, but the flat-markdown generator emits no bullets at all — it
never falls back from selected accomplishments to the full list. -/
theorem C2_counterexample :
    resolve_multi (expNoOverride.accomplishments.getD [])
        expNoOverride.selected_accomplishments = [str "Did A"] ∧
    JSONResumeTransformer._get_work_highlights expNoOverride = [str "Did A"] ∧
    RenderCVTransformer.expHighlights expNoOverride = [str "Did A"] ∧
    Matcher.expBullets expNoOverride = [] := by
  decide

/-- Claim C2 (amended): multi-value resolution of accomplishments follows the
resolve-multi contract (override verbatim whenever the key is present, even
empty; else the full candidates) at the JSON-résumé and CV-renderer sites;
the flat-markdown site instead emits bullets only from a present-and-truthy
override and emits nothing — never the candidates — when the override is
absent or empty. -/
theorem C2_multi_value_resolution (exp : Exp) :
    JSONResumeTransformer._get_work_highlights exp
      = resolve_multi (exp.accomplishments.getD []) exp.selected_accomplishments ∧
    RenderCVTransformer.expHighlights exp
      = resolve_multi (exp.accomplishments.getD []) exp.selected_accomplishments ∧
    (exp.selected_accomplishments.getD [] = [] → Matcher.expBullets exp = []) := by
  refine ⟨?_, ?_, ?_⟩
  · cases h : exp.selected_accomplishments <;>
      simp [JSONResumeTransformer._get_work_highlights, resolve_multi, h]
  · cases h : exp.selected_accomplishments
    · by_cases h2 : exp.accomplishments.getD [] = [] <;>
        simp [RenderCVTransformer.expHighlights, resolve_multi, h, h2]
    · simp [RenderCVTransformer.expHighlights, resolve_multi, h]
  · intro h; simp [Matcher.expBullets, h]

/-- Witness for C2 (amended) at the concrete no-override entry. -/
theorem C2_multi_value_resolution_witness :
    expNoOverride.selected_accomplishments.getD [] = [] ∧
    Matcher.expBullets expNoOverride = [] :=
  ⟨by decide, (C2_multi_value_resolution expNoOverride).2.2 (by decide)⟩

/-- Claim C4: the CV-renderer date normalizer maps a month-name date to
YYYY-MM, passes a bare year through, maps a present end component to the
literal word present, extracts the start year 2020 from the two-digit range,
and maps unparseable text to the empty string (all functions are total, so no
exception can be raised). -/
theorem C4_date_normalization :
    RenderCVTransformer._normalize_date (str "Jan 2020") = str "2020-01" ∧
    RenderCVTransformer._normalize_date (str "2020") = str "2020" ∧
    (RenderCVTransformer._parse_duration (str "Jan 2020 - Present")).2 = str "present" ∧
    RenderCVTransformer._normalize_date (str "20-21") = str "2020" ∧
    RenderCVTransformer._normalize_date (str "garbage") = [] := by
  decide

/-- Claim C5: an education entry whose institution is empty or whose
field/area/degree resolution is empty contributes zero entries to the
CV-renderer education section, wherever it sits in the input list. -/
theorem C5_education_drop (pre post : List Edu) (edu : Edu)
    (h : edu.institution.getD [] = [] ∨ RenderCVTransformer.eduArea edu = []) :
    RenderCVTransformer._build_education_entries (pre ++ edu :: post)
      = RenderCVTransformer._build_education_entries (pre ++ post) := by
  have h0 := eduEntryOut_eq_none edu h
  simp [RenderCVTransformer._build_education_entries, List.filterMap_append,
    List.filterMap_cons, h0]

/-- Witness for C5 at an entry with empty institution and no area keys. -/
theorem C5_education_drop_witness :
    (eduNoInstitution.institution.getD [] = [] ∨
      RenderCVTransformer.eduArea eduNoInstitution = []) ∧
    RenderCVTransformer._build_education_entries ([] ++ eduNoInstitution :: [])
      = RenderCVTransformer._build_education_entries ([] ++ []) :=
  ⟨Or.inl (by decide), C5_education_drop [] [] eduNoInstitution (Or.inl (by decide))⟩

/-- Claim C6: the claim says no transformer mutates its input record, but the
CV-renderer education builder appends the GPA line to the input entry's own
highlights list (the local variable aliases it), so after the transform the
input record differs from what was passed in. -/
theorem C6_rendercv_mutates_input :
    RenderCVTransformer.transform_to_rendercv_input_after resumeWithGpa ≠ resumeWithGpa ∧
    RenderCVTransformer.transform_to_rendercv_input_after resumeWithGpa
      = { resumeWithGpa with
          education := some
            [{ eduWithGpa with
               highlights := some [str "Deans list", str "GPA: 4.0"] }] } := by
  decide

/-- Claim C7 counterexample: on a skills mapping populated in insertion order
tools, technical, programming, the CV-renderer skills section follows the
insertion order (tools first) and the JSON-résumé transformer emits the
declared order programming, technical, tools — neither matches the claimed
fixed order technical, programming, tools. -/
theorem C7_counterexample :
    (RenderCVTransformer._build_skills_entries skillsToolsFirst).map
        RenderCVTransformer.RCSkillsEntry.label
      = [str "Tools", str "Technical", str "Programming"] ∧
    (JSONResumeTransformer._transform_skills skillsToolsFirst).map
        JSONResumeTransformer.JRSkillsEntry.name
      = [str "Programming Languages", str "Technical Skills", str "Tools & Technologies"] ∧
    [str "Tools", str "Technical", str "Programming"]
      ≠ [str "Technical", str "Programming", str "Tools"] := by
  decide

/-- Claim C7 (amended): for every skills mapping populated in insertion order
tools, technical, programming with non-empty values, the JSON-résumé
transformer lists the categories in its declared order programming,
technical, tools (soft skills skipped as empty), while the CV-renderer
transformer and the flat-markdown skills line follow the insertion order of
the input mapping. -/
theorem C7_skills_order (ts xs ps : List (List Char))
    (hts : ts ≠ []) (hxs : xs ≠ []) (hps : ps ≠ []) :
    (JSONResumeTransformer._transform_skills
        [(str "tools", ts), (str "technical", xs), (str "programming", ps)]).map
        JSONResumeTransformer.JRSkillsEntry.name
      = [str "Programming Languages", str "Technical Skills", str "Tools & Technologies"] ∧
    (RenderCVTransformer._build_skills_entries
        [(str "tools", ts), (str "technical", xs), (str "programming", ps)]).map
        RenderCVTransformer.RCSkillsEntry.label
      = [str "Tools", str "Technical", str "Programming"] ∧
    Matcher.allSkills [(str "tools", ts), (str "technical", xs), (str "programming", ps)]
      = ts ++ xs ++ ps := by
  have hp : dictGet (str "programming")
      [(str "tools", ts), (str "technical", xs), (str "programming", ps)] = ps := rfl
  have ht : dictGet (str "technical")
      [(str "tools", ts), (str "technical", xs), (str "programming", ps)] = xs := rfl
  have hto : dictGet (str "tools")
      [(str "tools", ts), (str "technical", xs), (str "programming", ps)] = ts := rfl
  have hso : dictGet (str "soft_skills")
      [(str "tools", ts), (str "technical", xs), (str "programming", ps)] = [] := rfl
  refine ⟨?_, ?_, ?_⟩
  · simp [JSONResumeTransformer._transform_skills, hp, ht, hto, hso, hts, hxs, hps]
  · simp [RenderCVTransformer._build_skills_entries, hts, hxs, hps]
    decide
  · simp [Matcher.allSkills, hts, hxs, hps]

/-- Witness for C7 (amended) at concrete skill values. -/
theorem C7_skills_order_witness :
    (([str "Git"] : List (List Char)) ≠ [] ∧ ([str "ML"] : List (List Char)) ≠ [] ∧
      ([str "Python"] : List (List Char)) ≠ []) ∧
    Matcher.allSkills
        [(str "tools", [str "Git"]), (str "technical", [str "ML"]),
         (str "programming", [str "Python"])]
      = [str "Git"] ++ [str "ML"] ++ [str "Python"] :=
  ⟨⟨by decide, by decide, by decide⟩,
    (C7_skills_order [str "Git"] [str "ML"] [str "Python"]
      (by decide) (by decide) (by decide)).2.2⟩

/-- Claim C8 counterexample: the claim demands two bullet lines for the two
accomplishments, but the generated markdown for the scenario record contains
no bullet at all — the generator only emits selected accomplishments. -/
theorem C8_counterexample :
    expEngineer.accomplishments = some [str "Shipped X", str "Improved Y"] ∧
    '•' ∉ Matcher.generate_markdown resumeEngineer := by
  decide

/-- Claim C8 (amended): the scenario record produces exactly the Professional
Experience heading and the header line, with no role-summary line and no
bullet lines, because the markdown generator emits bullets only from
selected accomplishments and none are selected. -/
theorem C8_markdown_scenario :
    Matcher.generate_markdown resumeEngineer
      = str "## Professional Experience\n\n### Engineer | Acme | Jan 2020 - Present" := by
  decide

/-- Claim C10: the generic JSON-résumé transformer performs no date
normalization: its normalizer is the identity on non-empty strings, the
emitted start date is the stripped raw text before the first separator of
the duration, and the emitted end date is empty whenever the end component
is present/current/now case-insensitively. -/
theorem C10_json_no_normalization :
    (∀ s : List Char, s ≠ [] → JSONResumeTransformer._normalize_date s = s) ∧
    (∀ d : List Char,
      JSONResumeTransformer._parse_start_date d = Py.strip ((Py.splitDash d).headD [])) ∧
    (∀ d : List Char, 2 ≤ (Py.splitDash d).length →
      Py.lower (Py.strip ((Py.splitDash d).getD 1 [])) ∈ presentWords →
      JSONResumeTransformer._parse_end_date d = []) := by
  refine ⟨?_, ?_, ?_⟩
  · intro s hs
    exact json_normalize_id s
  · intro d
    by_cases hd : d = []
    · subst hd; decide
    · simp only [JSONResumeTransformer._parse_start_date]
      rw [if_neg hd, if_pos (by have := List.length_pos.mpr (splitDash_ne_nil d); omega)]
      exact json_normalize_id _
  · intro d h2 hmem
    have hd : d ≠ [] := by
      intro h; subst h
      simp [Py.splitDash] at h2
    simp only [JSONResumeTransformer._parse_end_date]
    rw [if_neg hd, if_pos h2, if_pos hmem]

/-- Witness for C10 at the duration of the end-to-end scenario. -/
theorem C10_json_no_normalization_witness :
    (str "Jan 2020" ≠ ([] : List Char)) ∧
    JSONResumeTransformer._normalize_date (str "Jan 2020") = str "Jan 2020" ∧
    JSONResumeTransformer._parse_start_date (str "Jan 2020 - Present") = str "Jan 2020" ∧
    2 ≤ (Py.splitDash (str "Jan 2020 - Present")).length ∧
    JSONResumeTransformer._parse_end_date (str "Jan 2020 - Present") = [] := by
  refine ⟨by decide, C10_json_no_normalization.1 _ (by decide), ?_, by decide,
    C10_json_no_normalization.2.2 _ (by decide) (by decide)⟩
  rw [C10_json_no_normalization.2.1 (str "Jan 2020 - Present")]
  decide
